import Mathlib

/-!
Shallow embedding of the token cache / refresh / authenticated-fetch core of
src/server.js (a Node HTTP proxy for Google Drive/Sheets).

Modelling conventions:
* JavaScript values appearing in the relevant code paths (process.env strings,
  JSON fields such as access_token and expires_in) are modelled by `JVal`;
  JS truthiness is `JVal.truthy`.
* JS numbers are modelled by `JSNum := Option Int`, where none stands for NaN:
  all the arithmetic the code performs on times is integral, and comparisons
  and arithmetic with NaN are propagated as in JS (`x < NaN` is false,
  NaN + x = NaN).  Times are in milliseconds, exactly as Date.now() yields.
* Effects are made explicit: a `St` record threads the token cache together
  with observation counters (network calls to the token endpoint, invocations
  of refreshAccessToken, outbound requests issued), and an `Env` record is
  the outside world (the clock, the token endpoint's responses, the Google
  API's response status for each issued request).  Each JS Date.now() call
  within one logical operation is modelled by the single clock value env.now.
* `throw` in the JS code becomes `Except.error` with the error taxonomy of the
  spec (ConfigurationError / UpstreamError / ProtocolError).
-/

/-- A JavaScript value, restricted to the shapes the modelled code paths see:
undefined, null, numbers and strings. -/
inductive JVal where
  | undef
  | null
  | num (n : Int)
  | str (s : String)
deriving DecidableEq

/-- JS truthiness for `JVal`: undefined, null, 0 and the empty string are
falsy, everything else is truthy. -/
def JVal.truthy : JVal → Bool
  | .undef => false
  | .null => false
  | .num n => n ≠ 0
  | .str s => s ≠ ""

/-- `a || b` in JS: the left operand if truthy, otherwise the right one. -/
def jsOr (a b : JVal) : JVal := if a.truthy then a else b

/-- A JS number that may be NaN (`none`). All numeric values the modelled code
manipulates are integral milliseconds or seconds. -/
def JSNum := Option Int
deriving DecidableEq

/-- NaN-propagating addition. -/
def jsAdd (a b : JSNum) : JSNum :=
  match a, b with
  | some x, some y => some (x + y)
  | _, _ => none

/-- NaN-propagating subtraction. -/
def jsSub (a b : JSNum) : JSNum :=
  match a, b with
  | some x, some y => some (x - y)
  | _, _ => none

/-- NaN-propagating multiplication. -/
def jsMul (a b : JSNum) : JSNum :=
  match a, b with
  | some x, some y => some (x * y)
  | _, _ => none

/-- `t < e` where `t` is a genuine number (Date.now()) and `e` may be NaN;
any comparison against NaN is false in JS. -/
def jsLtNum (t : Int) (e : JSNum) : Bool :=
  match e with
  | some x => t < x
  | none => false

/-- JS `Number(string)` restricted to the string shapes relevant here: the
empty string converts to 0, a pure decimal-digit string to its value, and any
other string (non-numeric) to NaN. -/
def jsStrToNum (s : String) : JSNum :=
  if s.data = [] then some 0
  else if s.data.all (fun c => c.isDigit) then
    some (s.data.foldl (fun acc c => acc * 10 + ((c.toNat : Int) - 48)) 0)
  else none

/-- JS `Number(v)` on the value shapes reaching it in the code:
undefined is NaN, null is 0, numbers are themselves, strings convert via
`jsStrToNum`. -/
def jsNumber : JVal → JSNum
  | .undef => none
  | .null => some 0
  | .num n => some n
  | .str s => jsStrToNum s

/-- JS string interpolation of a value, as in the template literal
Bearer plus token. -/
def jsToString : JVal → String
  | .undef => "undefined"
  | .null => "null"
  | .num n => toString n
  | .str s => s

deriving instance DecidableEq for Except

/-- The Google OAuth credentials read from the environment at startup:
each of process.env.GOOGLE_CLIENT_ID / _SECRET / _REFRESH_TOKEN is a string
or undefined. -/
structure Creds where
  clientId : JVal
  clientSecret : JVal
  refreshToken : JVal
deriving DecidableEq

/-- The check on src/server.js line 62: all three credential fields truthy. -/
def Creds.ok (c : Creds) : Bool :=
  c.clientId.truthy && c.clientSecret.truthy && c.refreshToken.truthy

/-- The process-wide token cache (src/server.js line 56):
accessToken starts null, expiresAt is an absolute time in ms (0 initially,
i.e. already in the past), possibly NaN after a malformed expires_in. -/
structure TokenCache where
  accessToken : JVal
  expiresAt : JSNum
deriving DecidableEq

/-- The initial cache value on line 56. -/
def tokenCacheInit : TokenCache := { accessToken := JVal.null, expiresAt := some 0 }

/-- A response from the OAuth token endpoint, as the code reads it:
HTTP status, raw body text, and the two JSON fields it extracts. -/
structure TokenResp where
  status : Int
  bodyText : String
  access_token : JVal
  expires_in : JVal
deriving DecidableEq

/-- fetch Response.ok: status in the 2xx range. -/
def TokenResp.respOk (r : TokenResp) : Bool := 200 ≤ r.status && r.status < 300

/-- The errors thrown by refreshAccessToken, following the spec taxonomy:
missing credentials (line 63), non-success token endpoint status (line 91),
missing access_token field (line 98). -/
inductive RErr where
  | configurationError
  | upstreamError (status : Int) (body : String)
  | protocolError
deriving DecidableEq

/-- An outbound HTTP request as finally issued by fetchGoogle. -/
structure Request where
  url : String
  method : String
  headers : List (String × String)
  body : String
deriving DecidableEq

/-- Caller-supplied request options (the opts argument of fetchGoogle). -/
structure Opts where
  method : String
  headers : List (String × String)
  body : String
deriving DecidableEq

/-- Headers.set: replace any existing entry for the name, keeping the rest. -/
def headersSet (hs : List (String × String)) (name value : String) :
    List (String × String) :=
  hs.filter (fun p => p.1 ≠ name) ++ [(name, value)]

/-- The outside world: the clock, the token endpoint's answer to the i-th
network call made to it, and the Google API's response status to each issued
request. -/
structure Env where
  now : Int
  tokenEndpoint : Nat → TokenResp
  google : Request → Int

/-- The threaded program state: the shared token cache plus observation
counters — network calls to the token endpoint, invocations of
refreshAccessToken, and the outbound requests issued so far. -/
structure St where
  cache : TokenCache
  tokenCalls : Nat
  refreshCalls : Nat
  attempts : List Request
deriving DecidableEq

/-- src/server.js lines 59-108, refreshAccessToken:
check credentials; return the cached token if the cache has not expired
(lines 66-69 — note this is a cache check, not a forced refresh); otherwise
POST to the token endpoint, fail on non-ok status or missing access_token,
and on success replace the cache wholesale with the new token and
expiresAt = now + (expiresIn - 60) * 1000 where expiresIn is
Number(json.expires_in or-else 3600). -/
def refreshAccessToken (creds : Creds) (env : Env) (s : St) :
    Except RErr JVal × St :=
  let s0 : St := { s with refreshCalls := s.refreshCalls + 1 }
  if ¬ creds.ok then (Except.error RErr.configurationError, s0)
  else if jsLtNum env.now s0.cache.expiresAt then
    (Except.ok s0.cache.accessToken, s0)
  else
    let resp := env.tokenEndpoint s0.tokenCalls
    let s1 : St := { s0 with tokenCalls := s0.tokenCalls + 1 }
    if ¬ resp.respOk then
      (Except.error (RErr.upstreamError resp.status resp.bodyText), s1)
    else
      let accessToken := resp.access_token
      let expiresIn := jsNumber (jsOr resp.expires_in (JVal.num 3600))
      if ¬ accessToken.truthy then (Except.error RErr.protocolError, s1)
      else
        let newCache : TokenCache :=
          { accessToken := accessToken,
            expiresAt := jsAdd (some env.now)
              (jsMul (jsSub expiresIn (some 60)) (some 1000)) }
        (Except.ok accessToken, { s1 with cache := newCache })

/-- src/server.js lines 110-115, getAccessToken: return the cached token if
present (truthy) and now is strictly before expiresAt, else refresh. -/
def getAccessToken (creds : Creds) (env : Env) (s : St) :
    Except RErr JVal × St :=
  if s.cache.accessToken.truthy && jsLtNum env.now s.cache.expiresAt then
    (Except.ok s.cache.accessToken, s)
  else refreshAccessToken creds env s

/-- The request fetchGoogle issues (lines 119-121): the caller's
url/method/headers/body, with Authorization set to Bearer token via
Headers.set and everything else unchanged. -/
def builtRequest (url : String) (opts : Opts) (token : JVal) : Request :=
  { url := url, method := opts.method,
    headers := headersSet opts.headers "Authorization"
      ("Bearer " ++ jsToString token),
    body := opts.body }

/-- One outbound attempt of fetchGoogle (lines 118-121): obtain a token,
build the request with the Bearer header attached, issue and log it, and
return the Google API's status for it. -/
def fetchAttempt (creds : Creds) (env : Env) (url : String) (opts : Opts)
    (s : St) : Except RErr Int × St :=
  match getAccessToken creds env s with
  | (Except.error e, s1) => (Except.error e, s1)
  | (Except.ok token, s1) =>
    let req : Request := builtRequest url opts token
    let s2 : St := { s1 with attempts := s1.attempts ++ [req] }
    (Except.ok (env.google req), s2)

/-- src/server.js lines 117-128, fetchGoogle, with the retry flag recast as
the number of retries still allowed (true is 1, false is 0, see `fetchGoogle`):
make an attempt; when its status is 401 and a retry is still allowed, call
refreshAccessToken and recurse with one retry fewer (the source's recursion
with retry = false); any other status — and a 401 once retries are
exhausted — is returned unchanged. -/
def fetchGoogleN (creds : Creds) (env : Env) (url : String) (opts : Opts) :
    Nat → St → Except RErr Int × St
  | n, s =>
    match fetchAttempt creds env url opts s with
    | (Except.error e, s1) => (Except.error e, s1)
    | (Except.ok status, s1) =>
      match n with
      | 0 => (Except.ok status, s1)
      | n' + 1 =>
        if status = 401 then
          match refreshAccessToken creds env s1 with
          | (Except.error e, s2) => (Except.error e, s2)
          | (Except.ok _, s2) => fetchGoogleN creds env url opts n' s2
        else (Except.ok status, s1)

/-- fetchGoogle with the source's Bool retry parameter (default true at call
sites): retry = true allows one retried attempt, retry = false none. -/
def fetchGoogle (creds : Creds) (env : Env) (url : String) (opts : Opts)
    (retry : Bool) (s : St) : Except RErr Int × St :=
  fetchGoogleN creds env url opts retry.toNat s

/-- A sequence of getAccessToken calls, each under its own environment
(its own clock instant), threading the state. -/
def getAccessTokenSeq (creds : Creds) :
    List Env → St → List (Except RErr JVal) × St
  | [], s => ([], s)
  | e :: es, s =>
    match getAccessToken creds e s with
    | (r, s1) =>
      match getAccessTokenSeq creds es s1 with
      | (rs, s2) => (r :: rs, s2)

/-! ### Concrete fixtures used by witnesses and counterexamples -/

/-- Fresh program state: the initial cache, no calls made yet. -/
def stInit : St :=
  { cache := tokenCacheInit, tokenCalls := 0, refreshCalls := 0, attempts := [] }

/-- Configured credentials, as in the spec scenario. -/
def credsGood : Creds :=
  { clientId := JVal.str "a", clientSecret := JVal.str "b",
    refreshToken := JVal.str "c" }

/-- A token endpoint success response carrying T1 with expires_in 120. -/
def respT1 : TokenResp :=
  { status := 200, bodyText := "", access_token := JVal.str "T1",
    expires_in := JVal.num 120 }

/-- An environment with a constant token-endpoint response and a constant
Google status. -/
def envConst (now : Int) (r : TokenResp) (g : Int) : Env :=
  { now := now, tokenEndpoint := fun _ => r, google := fun _ => g }

/-- Empty request options. -/
def optsNone : Opts := { method := "GET", headers := [], body := "" }

/-! ### Helper lemmas shared across the development -/

theorem refreshAccessToken_state (creds : Creds) (env : Env) (s : St) :
    (refreshAccessToken creds env s).2.attempts = s.attempts ∧
    (refreshAccessToken creds env s).2.refreshCalls = s.refreshCalls + 1 ∧
    (refreshAccessToken creds env s).2.tokenCalls ≤ s.tokenCalls + 1 := by
  by_cases h1 : creds.ok = true
  · by_cases h2 : jsLtNum env.now s.cache.expiresAt = true
    · simp [refreshAccessToken, h1, h2]
    · by_cases h3 : (env.tokenEndpoint s.tokenCalls).respOk = true
      · by_cases h4 : (env.tokenEndpoint s.tokenCalls).access_token.truthy = true
        · simp [refreshAccessToken, h1, h2, h3, h4]
        · simp [refreshAccessToken, h1, h2, h3, h4]
      · simp [refreshAccessToken, h1, h2, h3]
  · simp [refreshAccessToken, h1]

theorem getAccessToken_attempts_eq (creds : Creds) (env : Env) (s : St) :
    (getAccessToken creds env s).2.attempts = s.attempts := by
  by_cases h : (s.cache.accessToken.truthy &&
      jsLtNum env.now s.cache.expiresAt) = true
  · simp [getAccessToken, h]
  · simp only [getAccessToken, h, if_false]
    exact (refreshAccessToken_state creds env s).1

theorem fetchAttempt_attempts_le (creds : Creds) (env : Env) (url : String)
    (opts : Opts) (s : St) :
    (fetchAttempt creds env url opts s).2.attempts.length ≤
      s.attempts.length + 1 := by
  have h := getAccessToken_attempts_eq creds env s
  unfold fetchAttempt
  cases heq : getAccessToken creds env s with
  | mk r s1 =>
    rw [heq] at h
    cases r with
    | error e => simpa using Nat.le_of_eq (congrArg List.length h) |>.trans (Nat.le_succ _)
    | ok t => simp at h; simp [h]

/-! ### C7: missing credentials -/

/-- C7: every call to refreshAccessToken with any credential field absent
(falsy) fails with ConfigurationError and issues zero network calls to the
token endpoint, leaving the cache untouched.  The statement quantifies over
every state and environment — including states whose cache is still valid —
so the check is re-performed on each call, not only at startup. -/
theorem refreshAccessToken_missing_creds (creds : Creds) (env : Env) (s : St)
    (h : creds.ok = false) :
    refreshAccessToken creds env s =
      (Except.error RErr.configurationError,
        { s with refreshCalls := s.refreshCalls + 1 }) ∧
    (refreshAccessToken creds env s).2.tokenCalls = s.tokenCalls ∧
    (refreshAccessToken creds env s).2.cache = s.cache := by
  simp [refreshAccessToken, h]

/-- C7 witness: client secret undefined, at a state whose cached token would
still be valid — the call errors with ConfigurationError and the network-call
counter stays at zero. -/
theorem refreshAccessToken_missing_creds_witness :
    refreshAccessToken
        { clientId := JVal.str "a", clientSecret := JVal.undef,
          refreshToken := JVal.str "c" }
        (envConst 0 respT1 200)
        { cache := { accessToken := JVal.str "T1", expiresAt := some 1000 },
          tokenCalls := 0, refreshCalls := 0, attempts := [] } =
      (Except.error RErr.configurationError,
        { cache := { accessToken := JVal.str "T1", expiresAt := some 1000 },
          tokenCalls := 0, refreshCalls := 1, attempts := [] }) ∧
    (refreshAccessToken
        { clientId := JVal.str "a", clientSecret := JVal.undef,
          refreshToken := JVal.str "c" }
        (envConst 0 respT1 200)
        { cache := { accessToken := JVal.str "T1", expiresAt := some 1000 },
          tokenCalls := 0, refreshCalls := 0, attempts := [] }).2.tokenCalls = 0 ∧
    (refreshAccessToken
        { clientId := JVal.str "a", clientSecret := JVal.undef,
          refreshToken := JVal.str "c" }
        (envConst 0 respT1 200)
        { cache := { accessToken := JVal.str "T1", expiresAt := some 1000 },
          tokenCalls := 0, refreshCalls := 0, attempts := [] }).2.cache =
      { accessToken := JVal.str "T1", expiresAt := some 1000 } :=
  refreshAccessToken_missing_creds _ _ _ (by decide)

/-! ### C4: the cache read -/

/-- C4: getAccessToken returns the cached access token exactly when the token
is present (truthy) and now is strictly below expiresAt, and in that case the
whole state — cache, network-call counter, refresh-invocation counter,
attempts — is unchanged: a pure read with no refresh and no network call.
In every other case the call is exactly a refreshAccessToken call (the
refresh-required signal).  Moreover, along any sequence of calls whose
instants all satisfy now < expiresAt, every call returns the same cached
token and the state at the end is still the initial one. -/
theorem getAccessToken_cache_read (creds : Creds) (env : Env) (s : St) :
    ((s.cache.accessToken.truthy && jsLtNum env.now s.cache.expiresAt) = true →
      getAccessToken creds env s = (Except.ok s.cache.accessToken, s)) ∧
    ((s.cache.accessToken.truthy && jsLtNum env.now s.cache.expiresAt) = false →
      getAccessToken creds env s = refreshAccessToken creds env s) ∧
    (∀ envs : List Env, s.cache.accessToken.truthy = true →
      (∀ e, e ∈ envs → jsLtNum e.now s.cache.expiresAt = true) →
      getAccessTokenSeq creds envs s =
        (envs.map fun _ => Except.ok s.cache.accessToken, s)) := by
  refine ⟨fun h => by simp [getAccessToken, h],
          fun h => by simp [getAccessToken, h], ?_⟩
  intro envs htr hall
  induction envs with
  | nil => simp [getAccessTokenSeq]
  | cons e es ih =>
    have he : jsLtNum e.now s.cache.expiresAt = true := hall e (by simp)
    have hone : getAccessToken creds e s = (Except.ok s.cache.accessToken, s) := by
      simp [getAccessToken, htr, he]
    have htail := ih (fun e' he' => hall e' (by simp [he']))
    simp [getAccessTokenSeq, hone, htail]

/-- C4 witness: a valid cached token T1 at now = 50000 ms with
expiresAt = 60000 ms is returned as-is, with the state unchanged. -/
theorem getAccessToken_cache_read_witness :
    getAccessToken credsGood (envConst 50000 respT1 200)
        { cache := { accessToken := JVal.str "T1", expiresAt := some 60000 },
          tokenCalls := 1, refreshCalls := 1, attempts := [] } =
      (Except.ok (JVal.str "T1"),
        { cache := { accessToken := JVal.str "T1", expiresAt := some 60000 },
          tokenCalls := 1, refreshCalls := 1, attempts := [] }) :=
  (getAccessToken_cache_read credsGood (envConst 50000 respT1 200)
      { cache := { accessToken := JVal.str "T1", expiresAt := some 60000 },
        tokenCalls := 1, refreshCalls := 1, attempts := [] }).1 (by decide)

/-! ### C5: expiry computation on successful refresh -/

/-- C5: on a refresh that goes to the network (credentials configured, cache
expired) and succeeds, the token is returned and the new expiry is exactly
now + (expires_in - 60) * 1000 ms — i.e. T + (expires_in - 60) seconds —
for any nonzero numeric expires_in; when the server omits the field, 3600 is
used, giving now + 3540 * 1000 ms, and expires_in = 3600 gives the same. -/
theorem refreshAccessToken_expiry (creds : Creds) (env : Env) (s : St)
    (hc : creds.ok = true)
    (hexp : jsLtNum env.now s.cache.expiresAt = false)
    (hok : (env.tokenEndpoint s.tokenCalls).respOk = true)
    (htok : (env.tokenEndpoint s.tokenCalls).access_token.truthy = true) :
    (∀ k : Int, (env.tokenEndpoint s.tokenCalls).expires_in = JVal.num k →
      k ≠ 0 →
      (refreshAccessToken creds env s).2.cache.expiresAt =
        some (env.now + (k - 60) * 1000)) ∧
    ((env.tokenEndpoint s.tokenCalls).expires_in = JVal.undef →
      (refreshAccessToken creds env s).2.cache.expiresAt =
        some (env.now + 3540 * 1000)) ∧
    ((env.tokenEndpoint s.tokenCalls).expires_in = JVal.num 3600 →
      (refreshAccessToken creds env s).2.cache.expiresAt =
        some (env.now + 3540 * 1000)) ∧
    (refreshAccessToken creds env s).1 =
      Except.ok (env.tokenEndpoint s.tokenCalls).access_token ∧
    (refreshAccessToken creds env s).2.cache.accessToken =
      (env.tokenEndpoint s.tokenCalls).access_token := by
  refine ⟨?_, ?_, ?_, ?_, ?_⟩
  · intro k hk hk0
    have hor : jsOr (JVal.num k) (JVal.num 3600) = JVal.num k := by
      simp [jsOr, JVal.truthy, hk0]
    simp [refreshAccessToken, hc, hexp, hok, htok, hk, hor,
      jsNumber, jsSub, jsMul, jsAdd]
  · intro hk
    have hor : jsOr JVal.undef (JVal.num 3600) = JVal.num 3600 := by
      simp [jsOr, JVal.truthy]
    simp [refreshAccessToken, hc, hexp, hok, htok, hk, hor,
      jsNumber, jsSub, jsMul, jsAdd]
  · intro hk
    have hor : jsOr (JVal.num 3600) (JVal.num 3600) = JVal.num 3600 := by
      simp [jsOr, JVal.truthy]
    simp [refreshAccessToken, hc, hexp, hok, htok, hk, hor,
      jsNumber, jsSub, jsMul, jsAdd]
  · simp [refreshAccessToken, hc, hexp, hok, htok]
  · simp [refreshAccessToken, hc, hexp, hok, htok]

/-- C5 witness, the spec scenario: credentials a/b/c, response
access_token T1 with expires_in 120 received at T = 0: the expiry becomes
60000 ms (60 s); getAccessToken at 50000 ms (50 s) returns T1 from the cache;
getAccessToken at 61000 ms (61 s) takes the refresh path (the
refresh-invocation counter advances). -/
theorem refreshAccessToken_expiry_witness :
    (refreshAccessToken credsGood (envConst 0 respT1 200) stInit).2.cache.expiresAt
      = some 60000 ∧
    (getAccessToken credsGood (envConst 50000 respT1 200)
        (refreshAccessToken credsGood (envConst 0 respT1 200) stInit).2).1
      = Except.ok (JVal.str "T1") ∧
    (getAccessToken credsGood (envConst 61000 respT1 200)
        (refreshAccessToken credsGood (envConst 0 respT1 200) stInit).2).2.refreshCalls
      = 2 := by
  refine ⟨?_, by decide, by decide⟩
  have h := (refreshAccessToken_expiry credsGood (envConst 0 respT1 200) stInit
      (by decide) (by decide) (by decide) (by decide)).1 120 (by decide) (by decide)
  rw [h]
  decide

/-! ### C2 (amended): network calls per refresh invocation -/

/-- C2 as amended: with configured credentials, a refreshAccessToken
invocation never makes more than one network call to the token endpoint and
never retries internally; it makes exactly one call when the cache is expired
or empty, but zero calls when the cache entry is still valid, in which case
it returns the cached token untouched (this is the cache check of
src/server.js lines 66-69, which the claim as stated denies). -/
theorem refreshAccessToken_network_calls (creds : Creds) (env : Env) (s : St)
    (hc : creds.ok = true) :
    (refreshAccessToken creds env s).2.tokenCalls ≤ s.tokenCalls + 1 ∧
    (jsLtNum env.now s.cache.expiresAt = true →
      (refreshAccessToken creds env s).2.tokenCalls = s.tokenCalls ∧
      refreshAccessToken creds env s =
        (Except.ok s.cache.accessToken,
          { s with refreshCalls := s.refreshCalls + 1 })) ∧
    (jsLtNum env.now s.cache.expiresAt = false →
      (refreshAccessToken creds env s).2.tokenCalls = s.tokenCalls + 1) := by
  refine ⟨(refreshAccessToken_state creds env s).2.2, ?_, ?_⟩
  · intro h
    constructor <;> simp [refreshAccessToken, hc, h]
  · intro h
    by_cases h3 : (env.tokenEndpoint s.tokenCalls).respOk = true
    · by_cases h4 : (env.tokenEndpoint s.tokenCalls).access_token.truthy = true
      · simp [refreshAccessToken, hc, h, h3, h4]
      · simp [refreshAccessToken, hc, h, h3, h4]
    · simp [refreshAccessToken, hc, h, h3]

/-- C2 counterexample: with configured credentials and a still-valid cached
token, an invocation of refreshAccessToken performs zero network calls to the
token endpoint (the claim says exactly one, never zero) and returns the
cached token instead of a fresh one. -/
theorem refreshAccessToken_zero_network_counterexample :
    Creds.ok credsGood = true ∧
    (refreshAccessToken credsGood (envConst 0 respT1 200)
        { cache := { accessToken := JVal.str "T1", expiresAt := some 1000 },
          tokenCalls := 0, refreshCalls := 0, attempts := [] }).2.tokenCalls
      = 0 ∧
    (refreshAccessToken credsGood (envConst 0 respT1 200)
        { cache := { accessToken := JVal.str "T1", expiresAt := some 1000 },
          tokenCalls := 0, refreshCalls := 0, attempts := [] }).1
      = Except.ok (JVal.str "T1") := by decide

/-- C2 witness: at the fresh state (expired cache) with configured
credentials, a refreshAccessToken invocation makes exactly one network
call. -/
theorem refreshAccessToken_network_calls_witness :
    (refreshAccessToken credsGood (envConst 0 respT1 200) stInit).2.tokenCalls
      = stInit.tokenCalls + 1 :=
  (refreshAccessToken_network_calls credsGood (envConst 0 respT1 200) stInit
      (by decide)).2.2 (by decide)

/-! ### C8: the cache is replaced wholesale or not at all -/

/-- A failing token-endpoint response: non-2xx status. -/
def respFail : TokenResp :=
  { status := 500, bodyText := "bad", access_token := JVal.null,
    expires_in := JVal.undef }

/-- C8: the cache starts empty — falsy token and an expiry that no
nonnegative instant is strictly below; a refreshAccessToken call that fails
(missing credentials, non-success upstream status, or missing access_token)
leaves the cache exactly as it was; so does a cache-hit success; and a
success that went to the network replaces the cache wholesale with the
complete record built from the response — token and expiry together. -/
theorem tokenCache_wholesale (creds : Creds) (env : Env) (s : St) :
    tokenCacheInit.accessToken.truthy = false ∧
    (∀ t : Int, 0 ≤ t → jsLtNum t tokenCacheInit.expiresAt = false) ∧
    (∀ e : RErr, (refreshAccessToken creds env s).1 = Except.error e →
      (refreshAccessToken creds env s).2.cache = s.cache) ∧
    (jsLtNum env.now s.cache.expiresAt = true →
      (refreshAccessToken creds env s).2.cache = s.cache) ∧
    (∀ t : JVal, (refreshAccessToken creds env s).1 = Except.ok t →
      jsLtNum env.now s.cache.expiresAt = false →
      (refreshAccessToken creds env s).2.cache =
        { accessToken := (env.tokenEndpoint s.tokenCalls).access_token,
          expiresAt := jsAdd (some env.now)
            (jsMul (jsSub (jsNumber (jsOr
                (env.tokenEndpoint s.tokenCalls).expires_in (JVal.num 3600)))
              (some 60)) (some 1000)) }) := by
  refine ⟨by decide, ?_, ?_, ?_, ?_⟩
  · intro t ht
    simp [tokenCacheInit, jsLtNum]
    omega
  · intro e heq
    by_cases h1 : creds.ok = true
    · by_cases h2 : jsLtNum env.now s.cache.expiresAt = true
      · simp [refreshAccessToken, h1, h2] at heq
      · by_cases h3 : (env.tokenEndpoint s.tokenCalls).respOk = true
        · by_cases h4 :
              (env.tokenEndpoint s.tokenCalls).access_token.truthy = true
          · simp [refreshAccessToken, h1, h2, h3, h4] at heq
          · simp [refreshAccessToken, h1, h2, h3, h4]
        · simp [refreshAccessToken, h1, h2, h3]
    · simp [refreshAccessToken, h1]
  · intro h2
    by_cases h1 : creds.ok = true
    · simp [refreshAccessToken, h1, h2]
    · simp [refreshAccessToken, h1]
  · intro t heq h2
    by_cases h1 : creds.ok = true
    · by_cases h3 : (env.tokenEndpoint s.tokenCalls).respOk = true
      · by_cases h4 :
            (env.tokenEndpoint s.tokenCalls).access_token.truthy = true
        · simp [refreshAccessToken, h1, h2, h3, h4]
        · simp [refreshAccessToken, h1, h2, h3, h4] at heq
      · simp [refreshAccessToken, h1, h2, h3] at heq
    · simp [refreshAccessToken, h1] at heq

/-- C8 witness: an expired cache still holding T1, a refresh that fails
upstream with status 500 — the cache afterwards is exactly the record it
held before the call. -/
theorem tokenCache_wholesale_witness :
    (refreshAccessToken credsGood (envConst 5 respFail 200)
        { cache := { accessToken := JVal.str "T1", expiresAt := some 3 },
          tokenCalls := 0, refreshCalls := 0, attempts := [] }).2.cache =
      { accessToken := JVal.str "T1", expiresAt := some 3 } :=
  (tokenCache_wholesale credsGood (envConst 5 respFail 200)
      { cache := { accessToken := JVal.str "T1", expiresAt := some 3 },
        tokenCalls := 0, refreshCalls := 0, attempts := [] }).2.2.1
    (RErr.upstreamError 500 "bad") (by decide)

/-! ### C6: non-401 statuses pass through -/

/-- C6: if the outbound attempt comes back with any status other than 401
(403, 500, ...), fetchGoogle returns that status to the caller unchanged and
the state is exactly the one right after the attempt: no second attempt, no
additional refreshAccessToken invocation, no additional network call —
whatever the retry flag. -/
theorem fetchGoogle_non401_passthrough (creds : Creds) (env : Env)
    (url : String) (opts : Opts) (retry : Bool) (s : St) (status : Int)
    (s1 : St)
    (h : fetchAttempt creds env url opts s = (Except.ok status, s1))
    (h401 : status ≠ 401) :
    fetchGoogle creds env url opts retry s = (Except.ok status, s1) := by
  cases retry <;> simp [fetchGoogle, fetchGoogleN, h, h401]

/-- C6 witness: the Google API answers 500; fetchGoogle returns 500 after a
single attempt, with one refresh (the initial cache fill) and one token
network call in total. -/
theorem fetchGoogle_non401_passthrough_witness :
    fetchGoogle credsGood (envConst 0 respT1 500) "u" optsNone true stInit =
      (Except.ok 500,
        { cache := { accessToken := JVal.str "T1", expiresAt := some 60000 },
          tokenCalls := 1, refreshCalls := 1,
          attempts := [builtRequest "u" optsNone (JVal.str "T1")] }) :=
  fetchGoogle_non401_passthrough credsGood (envConst 0 respT1 500) "u"
    optsNone true stInit 500
    { cache := { accessToken := JVal.str "T1", expiresAt := some 60000 },
      tokenCalls := 1, refreshCalls := 1,
      attempts := [builtRequest "u" optsNone (JVal.str "T1")] }
    (by decide) (by decide)

/-! ### C9: shape of the issued request -/

/-- C9: whenever a token is obtained, the outbound attempt issues exactly the
request built from the caller's url, method and body unchanged, whose headers
are the caller's headers with Authorization set to Bearer token: the Bearer
header is present, every caller-supplied header other than Authorization is
kept, and no header beyond those and the Bearer one is introduced. -/
theorem fetchAttempt_request_shape (creds : Creds) (env : Env) (url : String)
    (opts : Opts) (s : St) (t : JVal) (s1 : St)
    (h : getAccessToken creds env s = (Except.ok t, s1)) :
    fetchAttempt creds env url opts s =
      (Except.ok (env.google (builtRequest url opts t)),
        { s1 with attempts := s1.attempts ++ [builtRequest url opts t] }) ∧
    (builtRequest url opts t).url = url ∧
    (builtRequest url opts t).method = opts.method ∧
    (builtRequest url opts t).body = opts.body ∧
    ("Authorization", "Bearer " ++ jsToString t) ∈
      (builtRequest url opts t).headers ∧
    (∀ kv : String × String, kv ∈ opts.headers → kv.1 ≠ "Authorization" →
      kv ∈ (builtRequest url opts t).headers) ∧
    (∀ kv : String × String, kv ∈ (builtRequest url opts t).headers →
      kv ∈ opts.headers ∨ kv = ("Authorization", "Bearer " ++ jsToString t)) := by
  refine ⟨by simp [fetchAttempt, h], rfl, rfl, rfl, ?_, ?_, ?_⟩
  · simp [builtRequest, headersSet]
  · intro kv hkv hne
    simp [builtRequest, headersSet]
    exact Or.inl ⟨hkv, hne⟩
  · intro kv hkv
    simp [builtRequest, headersSet] at hkv
    rcases hkv with ⟨hm, _⟩ | he
    · exact Or.inl hm
    · right
      cases kv
      simp_all

/-- C9 witness: a POST with one custom header and body b, under a valid
cached token T1: the issued request keeps method, url, body and the custom
header, and carries Authorization Bearer T1. -/
theorem fetchAttempt_request_shape_witness :
    fetchAttempt credsGood (envConst 0 respT1 200) "u"
        { method := "POST", headers := [("X-Custom", "1")], body := "b" }
        { cache := { accessToken := JVal.str "T1", expiresAt := some 1000 },
          tokenCalls := 0, refreshCalls := 0, attempts := [] } =
      (Except.ok 200,
        { cache := { accessToken := JVal.str "T1", expiresAt := some 1000 },
          tokenCalls := 0, refreshCalls := 0,
          attempts := [builtRequest "u"
            { method := "POST", headers := [("X-Custom", "1")], body := "b" }
            (JVal.str "T1")] }) ∧
    ("X-Custom", "1") ∈ (builtRequest "u"
        { method := "POST", headers := [("X-Custom", "1")], body := "b" }
        (JVal.str "T1")).headers ∧
    ("Authorization", "Bearer T1") ∈ (builtRequest "u"
        { method := "POST", headers := [("X-Custom", "1")], body := "b" }
        (JVal.str "T1")).headers :=
  ⟨(fetchAttempt_request_shape credsGood (envConst 0 respT1 200) "u"
      { method := "POST", headers := [("X-Custom", "1")], body := "b" }
      { cache := { accessToken := JVal.str "T1", expiresAt := some 1000 },
        tokenCalls := 0, refreshCalls := 0, attempts := [] }
      (JVal.str "T1")
      { cache := { accessToken := JVal.str "T1", expiresAt := some 1000 },
        tokenCalls := 0, refreshCalls := 0, attempts := [] }
      (by decide)).1,
    by decide, by decide⟩

/-! ### C3: the retry recursion is bounded -/

theorem fetchGoogleN_attempts_le (creds : Creds) (env : Env) (url : String)
    (opts : Opts) : ∀ (n : Nat) (s : St),
    (fetchGoogleN creds env url opts n s).2.attempts.length ≤
      s.attempts.length + n + 1 := by
  intro n
  induction n with
  | zero =>
    intro s
    have hle := fetchAttempt_attempts_le creds env url opts s
    rw [fetchGoogleN]
    cases hfa : fetchAttempt creds env url opts s with
    | mk r s1 =>
      rw [hfa] at hle
      cases r with
      | error e => simp at hle ⊢; omega
      | ok status => simp at hle ⊢; omega
  | succ n ih =>
    intro s
    have hle := fetchAttempt_attempts_le creds env url opts s
    rw [fetchGoogleN]
    cases hfa : fetchAttempt creds env url opts s with
    | mk r s1 =>
      rw [hfa] at hle
      simp at hle
      cases r with
      | error e => simp; omega
      | ok status =>
        by_cases h401 : status = 401
        · have hra := (refreshAccessToken_state creds env s1).1
          cases hrr : refreshAccessToken creds env s1 with
          | mk r2 s2 =>
            rw [hrr] at hra
            have hra' : s2.attempts.length = s1.attempts.length :=
              congrArg List.length hra
            cases r2 with
            | error e => simp [h401, hrr]; omega
            | ok t =>
              have hrec := ih s2
              simp [h401, hrr]
              omega
        · simp [h401]
          omega

/-- C3: at most two outbound attempts per fetchGoogle call (with retry
disallowed, at most one); with retry disallowed, whatever status the single
attempt yields — including a second 401 — is returned to the caller
unchanged; and the only way a second attempt can arise is the 401 branch:
after a 401 first attempt and a refreshAccessToken invocation that returns,
the call recurses exactly once more with the retry flag false. -/
theorem fetchGoogle_retry_bound (creds : Creds) (env : Env) (url : String)
    (opts : Opts) (s : St) :
    (∀ retry : Bool,
      (fetchGoogle creds env url opts retry s).2.attempts.length ≤
        s.attempts.length + 2) ∧
    ((fetchGoogle creds env url opts false s).2.attempts.length ≤
      s.attempts.length + 1) ∧
    (∀ (status : Int) (s1 : St),
      fetchAttempt creds env url opts s = (Except.ok status, s1) →
      fetchGoogle creds env url opts false s = (Except.ok status, s1)) ∧
    (∀ (status : Int) (s1 : St),
      fetchAttempt creds env url opts s = (Except.ok status, s1) →
      status = 401 →
      ∀ (t : JVal) (s2 : St),
        refreshAccessToken creds env s1 = (Except.ok t, s2) →
        fetchGoogle creds env url opts true s =
          fetchGoogle creds env url opts false s2) := by
  refine ⟨?_, ?_, ?_, ?_⟩
  · intro retry
    cases retry with
    | false =>
      have h := fetchGoogleN_attempts_le creds env url opts 0 s
      simp only [fetchGoogle, Bool.toNat_false]
      omega
    | true =>
      have h := fetchGoogleN_attempts_le creds env url opts 1 s
      simp only [fetchGoogle, Bool.toNat_true]
      omega
  · have h := fetchGoogleN_attempts_le creds env url opts 0 s
    simp only [fetchGoogle, Bool.toNat_false]
    omega
  · intro status s1 h
    simp [fetchGoogle, fetchGoogleN, h]
  · intro status s1 h h401 t s2 hr
    simp [fetchGoogle, fetchGoogleN, h, h401, hr]

/-- C3 witness: the Google API answers 401 on every attempt; with the retry
already disallowed, the single attempt's 401 is returned to the caller as-is,
not retried again. -/
theorem fetchGoogle_retry_bound_witness :
    fetchGoogle credsGood (envConst 0 respT1 401) "u" optsNone false stInit =
      (Except.ok 401,
        { cache := { accessToken := JVal.str "T1", expiresAt := some 60000 },
          tokenCalls := 1, refreshCalls := 1,
          attempts := [builtRequest "u" optsNone (JVal.str "T1")] }) :=
  (fetchGoogle_retry_bound credsGood (envConst 0 respT1 401) "u" optsNone
      stInit).2.2.1 401
    { cache := { accessToken := JVal.str "T1", expiresAt := some 60000 },
      tokenCalls := 1, refreshCalls := 1,
      attempts := [builtRequest "u" optsNone (JVal.str "T1")] }
    (by decide)

/-! ### C1: the 401 retry path and the stale-but-cache-valid token -/

/-- A token endpoint success response carrying T2. -/
def respT2 : TokenResp :=
  { status := 200, bodyText := "", access_token := JVal.str "T2",
    expires_in := JVal.num 3600 }

/-- The section-8 world: the token endpoint stands ready to hand out T2, and
the Google API answers 200 to a request bearing T2 but 401 to anything
else — T1 is stale server-side though the cache still considers it valid. -/
def envStale : Env :=
  { now := 0, tokenEndpoint := fun _ => respT2,
    google := fun r =>
      if ("Authorization", "Bearer T2") ∈ r.headers then 200 else 401 }

/-- A state whose cache holds T1, still valid at instant 0. -/
def stStale : St :=
  { cache := { accessToken := JVal.str "T1", expiresAt := some 1000000 },
    tokenCalls := 0, refreshCalls := 0, attempts := [] }

/-- C1, evaluated at the failing scenario: the first attempt carries T1 and
gets 401; the 401 branch does invoke refreshAccessToken (the invocation
counter reaches 1), but that call hits the still-valid cache, performs zero
network calls to the token endpoint and hands back T1; the retried attempt
therefore carries T1 again, and the caller gets 401 — although the token
endpoint stood ready with T2 and a T2-bearing request would have got 200.
The forced, cache-bypassing refresh the claim describes does not happen. -/
theorem fetchGoogle_stale_cache_valid_401 :
    (fetchGoogle credsGood envStale "u" optsNone true stStale).1 =
      Except.ok 401 ∧
    (fetchGoogle credsGood envStale "u" optsNone true stStale).2.tokenCalls
      = 0 ∧
    (fetchGoogle credsGood envStale "u" optsNone true stStale).2.refreshCalls
      = 1 ∧
    (fetchGoogle credsGood envStale "u" optsNone true stStale).2.attempts =
      [builtRequest "u" optsNone (JVal.str "T1"),
       builtRequest "u" optsNone (JVal.str "T1")] ∧
    (envStale.tokenEndpoint 0).access_token = JVal.str "T2" ∧
    envStale.google (builtRequest "u" optsNone (JVal.str "T2")) = 200 := by
  decide

/-! ### C10: falsy and non-numeric expires_in -/

/-- C10: on a refresh that reaches the network and succeeds, every falsy
expires_in — the number 0, null, or the empty string — is replaced by the
3600 default, giving expiresAt = now + 3540 * 1000 rather than an already
expired instant; and a non-numeric expires_in string makes expiresAt NaN, so
that afterwards every getAccessToken call, at every instant, takes the
refresh path (now < NaN is false). -/
theorem expires_in_falsy_default (creds : Creds) (env : Env) (s : St)
    (hc : creds.ok = true)
    (hexp : jsLtNum env.now s.cache.expiresAt = false)
    (hok : (env.tokenEndpoint s.tokenCalls).respOk = true)
    (htok : (env.tokenEndpoint s.tokenCalls).access_token.truthy = true) :
    ((env.tokenEndpoint s.tokenCalls).expires_in = JVal.num 0 ∨
      (env.tokenEndpoint s.tokenCalls).expires_in = JVal.null ∨
      (env.tokenEndpoint s.tokenCalls).expires_in = JVal.str "" →
      (refreshAccessToken creds env s).2.cache.expiresAt =
        some (env.now + 3540 * 1000)) ∧
    (∀ sx : String, (env.tokenEndpoint s.tokenCalls).expires_in = JVal.str sx →
      jsStrToNum sx = none →
      (refreshAccessToken creds env s).2.cache.expiresAt = none ∧
      (∀ env' : Env,
        getAccessToken creds env' (refreshAccessToken creds env s).2 =
          refreshAccessToken creds env' (refreshAccessToken creds env s).2)) := by
  constructor
  · intro hfalsy
    have hor : jsOr (env.tokenEndpoint s.tokenCalls).expires_in (JVal.num 3600)
        = JVal.num 3600 := by
      rcases hfalsy with hv | hv | hv <;> simp [jsOr, JVal.truthy, hv]
    simp [refreshAccessToken, hc, hexp, hok, htok, hor,
      jsNumber, jsSub, jsMul, jsAdd]
  · intro sx hv hnan
    have hne : sx ≠ "" := by
      intro h0
      rw [h0] at hnan
      simp [jsStrToNum] at hnan
    have hor : jsOr (env.tokenEndpoint s.tokenCalls).expires_in (JVal.num 3600)
        = JVal.str sx := by
      simp [jsOr, JVal.truthy, hv, hne]
    have hN : (refreshAccessToken creds env s).2.cache.expiresAt = none := by
      simp [refreshAccessToken, hc, hexp, hok, htok, hor,
        jsNumber, hnan, jsSub, jsMul, jsAdd]
    refine ⟨hN, ?_⟩
    intro env'
    simp [getAccessToken, hN, jsLtNum]

/-- A success response whose expires_in is the falsy number 0. -/
def respZero : TokenResp :=
  { status := 200, bodyText := "", access_token := JVal.str "T3",
    expires_in := JVal.num 0 }

/-- A success response whose expires_in is the non-numeric string abc. -/
def respNaN : TokenResp :=
  { status := 200, bodyText := "", access_token := JVal.str "T4",
    expires_in := JVal.str "abc" }

/-- C10 witness: expires_in = 0 received at T = 0 yields expiresAt =
3540000 ms (the 3600 default minus the 60 s buffer), and expires_in =
the string abc yields a NaN expiresAt. -/
theorem expires_in_falsy_default_witness :
    (refreshAccessToken credsGood (envConst 0 respZero 200) stInit).2.cache.expiresAt
      = some 3540000 ∧
    (refreshAccessToken credsGood (envConst 0 respNaN 200) stInit).2.cache.expiresAt
      = none := by
  constructor
  · have h := (expires_in_falsy_default credsGood (envConst 0 respZero 200)
        stInit (by decide) (by decide) (by decide) (by decide)).1
      (Or.inl (by decide))
    rw [h]
    decide
  · exact ((expires_in_falsy_default credsGood (envConst 0 respNaN 200)
        stInit (by decide) (by decide) (by decide) (by decide)).2
      "abc" (by decide) (by decide)).1
